import Mathlib

/-!
Shallow embedding of the two scripts of this repository:
`generate_icons.py` (a placeholder PWA icon generator built on PIL) and
`server.py` (a small static-file development HTTP server built on
`http.server.SimpleHTTPRequestHandler`).

Conventions of the embedding:
- Python integers are `Nat` or `Int`; Python floor division `//` on possibly
  negative operands is `Int.fdiv`; Python float arithmetic in the gradient
  computation is modelled exactly over `ℚ` (the float expressions involved
  stay far from rounding boundaries), with Python `int(...)` truncation
  modelled by `pyInt`.
- Fallible library calls (`ImageFont.truetype`, `ImageFont.load_default`)
  are modelled by an explicit environment `FontEnv` returning `Option`; a
  raised exception is `none`.
- The PIL image is modelled by its observable content: its dimensions, the
  per-row gradient fill colors, and the list of text-draw operations.
- The HTTP layer is modelled at the header-buffer level: `end_headers`
  appends headers after whatever the delegate handler already buffered, and
  the effective Content-Type of a response with repeated Content-Type
  headers is the last one in the buffer.
-/

namespace PWA

/-! ## generate_icons.py : data model -/

/-- Abstract handle for a loaded PIL font; glyph rasterization itself is
irrelevant to the claims, only which font object is used. -/
structure Font where
  id : Nat
  deriving DecidableEq

/-- Bounding box `(x0, y0, x1, y1)` as returned by `draw.textbbox((0,0), text, font)`. -/
structure BBox where
  x0 : Int
  y0 : Int
  x1 : Int
  y1 : Int
  deriving DecidableEq

/-- Environment modelling the fallible PIL font API and text measurement.
`truetype name size` models `ImageFont.truetype(name, size)` (`none` models a
raised exception), `loadDefault` models `ImageFont.load_default()`, and
`textbbox font text` models `draw.textbbox((0, 0), text, font=font)`. -/
structure FontEnv where
  truetype : String → Nat → Option Font
  loadDefault : Option Font
  textbbox : Font → String → BBox

/-- Record of one `draw.text((x, y), text, fill, font)` call. The fill color
is `white` for every draw in the source and is omitted. -/
structure TextDraw where
  text : String
  x : Int
  y : Int
  font : Font
  deriving DecidableEq

/-- Observable content of the PIL image built by `create_icon`:
dimensions from `Image.new("RGB", (size, size), ...)`, the per-row gradient
line fills, and the text draws. -/
structure Icon where
  width : Nat
  height : Nat
  rows : List (Nat × Int × Int × Int)
  texts : List TextDraw

/-- Result of `img.save(filename, "PNG")`: the file name written and the
image content serialized into it. -/
structure SavedFile where
  name : String
  image : Icon

/-! ## generate_icons.py : gradient math

Source line: `alpha = int(255 * (1 - y / size * 0.3))` followed by
`color = f..{hex(33 + int(alpha * 0.1))[2:]...` building a hex string from
channel values `33 + int(alpha * 0.1)`, `150 + int(alpha * 0.1)`, `243`.
-/

/-- Python `int(...)` applied to a real number: truncation toward zero. -/
def pyInt (q : ℚ) : Int := if q < 0 then ⌈q⌉ else ⌊q⌋

/-- Fade factor `alpha = int(255 * (1 - y / size * 0.3))` of row `y`. -/
def alphaFade (size y : Nat) : Int :=
  pyInt (255 * (1 - (y : ℚ) / (size : ℚ) * (3 / 10)))

/-- Red channel `33 + int(alpha * 0.1)` of the row-`y` fill color. -/
def channelR (size y : Nat) : Int :=
  33 + pyInt ((alphaFade size y : ℚ) * (1 / 10))

/-- Green channel `150 + int(alpha * 0.1)` of the row-`y` fill color. -/
def channelG (size y : Nat) : Int :=
  150 + pyInt ((alphaFade size y : ℚ) * (1 / 10))

/-- Blue channel of the row-`y` fill color: the constant `hex(243)`. -/
def channelB (_size _y : Nat) : Int := 243

/-- The gradient loop `for y in range(size)`: one horizontal line fill per
row, with the color channels computed from the fade factor. -/
def gradientRows (size : Nat) : List (Nat × Int × Int × Int) :=
  (List.range size).map (fun y => (y, channelR size y, channelG size y, channelB size y))

/-! ## generate_icons.py : font loading and text drawing -/

/-- Font point size `max(size // 8, 12)` used for the main label. -/
def fontSizeFor (size : Nat) : Nat := max (size / 8) 12

/-- Font loading with fallback: try `ImageFont.truetype("arial.ttf", max(size // 8, 12))`;
on exception try `ImageFont.load_default()`; on exception the font is `None`. -/
def loadFont (env : FontEnv) (size : Nat) : Option Font :=
  match env.truetype "arial.ttf" (fontSizeFor size) with
  | some f => some f
  | none => env.loadDefault

/-- Secondary font: `ImageFont.truetype("arial.ttf", max(size // 16, 8))`,
falling back to the main font on exception. -/
def loadSmallFont (env : FontEnv) (size : Nat) (font : Font) : Font :=
  match env.truetype "arial.ttf" (max (size / 16) 8) with
  | some f => f
  | none => font

/-- The main label draw: text `PWA`, measured with `draw.textbbox`, placed at
`x = (size - text_width) // 2` and `y = (size - text_height) // 2 - size // 8`. -/
def mainTextDraw (env : FontEnv) (size : Nat) (font : Font) : TextDraw :=
  let bbox := env.textbbox font "PWA"
  let tw := bbox.x1 - bbox.x0
  let th := bbox.y1 - bbox.y0
  { text := "PWA"
    x := ((size : Int) - tw).fdiv 2
    y := ((size : Int) - th).fdiv 2 - (size : Int).fdiv 8
    font := font }

/-- The secondary label draw for sizes at least 96: text `OFFLINE`, placed at
`x = (size - text_width) // 2` and `y = size * 3 // 4`. -/
def smallTextDraw (env : FontEnv) (size : Nat) (smallFont : Font) : TextDraw :=
  let bbox := env.textbbox smallFont "OFFLINE"
  let tw := bbox.x1 - bbox.x0
  { text := "OFFLINE"
    x := ((size : Int) - tw).fdiv 2
    y := ((size * 3 / 4 : Nat) : Int)
    font := smallFont }

/-- The image built by `create_icon(size, ...)` before saving: a size by size
canvas, the gradient rows, and the text draws (skipped when no font loaded,
with the secondary label only for `size >= 96`). -/
def createIconImage (env : FontEnv) (size : Nat) : Icon :=
  let texts :=
    match loadFont env size with
    | none => []
    | some font =>
      if 96 ≤ size then
        [mainTextDraw env size font,
         smallTextDraw env size (loadSmallFont env size font)]
      else
        [mainTextDraw env size font]
  { width := size
    height := size
    rows := gradientRows size
    texts := texts }

/-- Model of `create_icon(size, filename)`: build the image and save it under
`filename` as PNG. -/
def createIcon (env : FontEnv) (size : Nat) (filename : String) : SavedFile :=
  { name := filename, image := createIconImage env size }

/-- The fixed size list of `main()`. -/
def sizes : List Nat := [32, 72, 96, 128, 144, 152, 192, 384, 512]

/-- The filename pattern of `main()` for one size. -/
def iconFilename (size : Nat) : String :=
  "icons/icon-" ++ toString size ++ "x" ++ toString size ++ ".png"

/-- Model of `main()`: one `create_icon` call per configured size, in order,
producing the list of files written. -/
def mainRun (env : FontEnv) : List SavedFile :=
  sizes.map (fun size => createIcon env size (iconFilename size))

/-! ## server.py : header injection -/

/-- Model of the Python test `path.endswith(s)` on the underlying character
sequences. -/
def endsWithStr (path s : String) : Bool := s.data.isSuffixOf path.data

/-- The six headers `end_headers` sends unconditionally, in source order. -/
def fixedHeaders : List (String × String) :=
  [("Cache-Control", "no-cache, no-store, must-revalidate"),
   ("Pragma", "no-cache"),
   ("Expires", "0"),
   ("X-Content-Type-Options", "nosniff"),
   ("X-Frame-Options", "DENY"),
   ("X-XSS-Protection", "1; mode=block")]

/-- Model of `PWAHTTPRequestHandler.end_headers`: the final header buffer of a
response. `buffered` holds whatever the delegate handler already sent via
`send_header` (status-line headers, its inferred Content-Type, error-page
headers on a 404, ...); the override appends the six fixed headers, then the
service-worker pair when the request path ends with `sw.js`, then the
manifest Content-Type when it ends with `manifest.json`. -/
def endHeaders (path : String) (buffered : List (String × String)) :
    List (String × String) :=
  buffered ++ fixedHeaders
    ++ (if endsWithStr path "sw.js" then
          [("Service-Worker-Allowed", "/"),
           ("Content-Type", "application/javascript")]
        else [])
    ++ (if endsWithStr path "manifest.json" then
          [("Content-Type", "application/manifest+json")]
        else [])

/-- Effective Content-Type of a header buffer that may name Content-Type more
than once: the value of the last occurrence, the one written last. -/
def effectiveContentType (headers : List (String × String)) : Option String :=
  ((headers.filter (fun h => h.1 == "Content-Type")).getLast?).map (fun h => h.2)

/-! ## server.py : request routing -/

/-- The root rewrite of `do_GET`: `if self.path == "/": self.path = "/index.html"`. -/
def rewriteRoot (path : String) : String :=
  if path = "/" then "/index.html" else path

/-- Model of `do_GET`: rewrite the root path, then hand the (possibly
rewritten) path to the inherited file-serving machinery, abstracted as a
function `base` from the request path to the full response. -/
def doGET {α : Type} (base : String → α) (path : String) : α :=
  base (rewriteRoot path)

/-- Effective path handed to the inherited `SimpleHTTPRequestHandler`
machinery for a given method: GET goes through the overridden `do_GET`
(root rewrite); HEAD goes through the inherited `do_HEAD` unchanged; any
other method has no `do_*` handler and gets a 501 error (`none`). -/
def effectivePath (method path : String) : Option String :=
  if method = "GET" then some (rewriteRoot path)
  else if method = "HEAD" then some path
  else none

/-! ## server.py : MIME registry and the delegate guess

`run_server` calls `mimetypes.add_type` for five extensions; the inherited
handler infers a Content-Type through `guess_type`, which consults its own
small `extensions_map` of compressed-file types and then the global
`mimetypes` registry. Extension splitting follows `posixpath.splitext`:
the extension starts at the last dot of the basename, and a basename whose
characters before that dot are all dots has no extension. -/

/-- Index of the last occurrence of `c` in `p`, or `-1` when absent
(Python `str.rfind`). -/
def rfindIdx (p : List Char) (c : Char) : Int :=
  match (p.reverse).findIdx? (fun d => d = c) with
  | none => -1
  | some i => (p.length : Int) - 1 - (i : Int)

/-- Extension part of `posixpath.splitext` on a POSIX path: the suffix from
the last dot, provided that dot lies after the last slash and some character
strictly between them is not a dot; otherwise empty. -/
def splitextExt (p : List Char) : List Char :=
  let sepIndex := rfindIdx p '/'
  let dotIndex := rfindIdx p '.'
  if sepIndex < dotIndex &&
      (List.range p.length).any (fun i =>
        decide (sepIndex < (i : Int)) && decide ((i : Int) < dotIndex) &&
        decide (p.getD i ' ' ≠ '.')) then
    p.drop dotIndex.toNat
  else
    []

/-- ASCII lowering of one character, as applied by `str.lower` to the ASCII
extensions involved here. -/
def asciiLower (c : Char) : Char :=
  if 'A' ≤ c ∧ c ≤ 'Z' then Char.ofNat (c.toNat + 32) else c

/-- Extension of a path string, per `posixpath.splitext`. -/
def extOf (path : String) : String := String.mk (splitextExt path.data)

/-- Lowercased extension, per `ext.lower()` in `guess_type`. -/
def lowerExt (path : String) : String := String.mk ((splitextExt path.data).map asciiLower)

/-- Fragment of the stdlib default `mimetypes.types_map` covering the
extensions the claims touch (notably the stock `.json` entry that
`run_server` overrides). -/
def baseTypesMap : List (String × String) :=
  [(".json", "application/json"),
   (".js", "text/javascript"),
   (".css", "text/css"),
   (".png", "image/png"),
   (".svg", "image/svg+xml"),
   (".html", "text/html")]

/-- Model of `mimetypes.add_type(ty, ext)`: the new entry shadows any older
entry for the same extension (lookup takes the first match). -/
def addType (m : List (String × String)) (ty ext : String) : List (String × String) :=
  (ext, ty) :: m

/-- The global `mimetypes` registry after the five `add_type` calls of
`run_server`, applied in source order. -/
def runServerTypesMap : List (String × String) :=
  addType (addType (addType (addType (addType baseTypesMap
    "application/javascript" ".js")
    "application/manifest+json" ".json")
    "text/css" ".css")
    "image/png" ".png")
    "image/svg+xml" ".svg"

/-- The compressed-file special cases in `SimpleHTTPRequestHandler.extensions_map`,
checked before the global registry. -/
def handlerExtensionsMap : List (String × String) :=
  [(".gz", "application/gzip"),
   (".Z", "application/octet-stream"),
   (".bz2", "application/x-bzip2"),
   (".xz", "application/x-xz")]

/-- Model of `SimpleHTTPRequestHandler.guess_type` as run by the delegate
under the registry `typesMap`: handler extension map (exact then lowercased
extension), then the `mimetypes` registry (exact then lowercased extension),
then the `application/octet-stream` default. -/
def guessTypeHandler (typesMap : List (String × String)) (path : String) : String :=
  match handlerExtensionsMap.lookup (extOf path) with
  | some t => t
  | none =>
    match handlerExtensionsMap.lookup (lowerExt path) with
    | some t => t
    | none =>
      match typesMap.lookup (extOf path) with
      | some t => t
      | none =>
        match typesMap.lookup (lowerExt path) with
        | some t => t
        | none => "application/octet-stream"

/-! ## server.py : command-line entry point -/

/-- Digit-run tail of the Python `int(str)` grammar after the first digit:
further digits with single underscores allowed between digits. `lastUnd`
records whether the previous character was an underscore. -/
def parseDigitsCore : List Char → Bool → Nat → Option Nat
  | [], lastUnd, acc => if lastUnd then none else some acc
  | c :: rest, lastUnd, acc =>
    if c.isDigit then parseDigitsCore rest false (acc * 10 + (c.toNat - 48))
    else if c = '_' then
      if lastUnd then none else parseDigitsCore rest true acc
    else none

/-- Unsigned decimal literal of the Python `int(str)` grammar: at least one
digit, underscores only between digits. -/
def parseDigits : List Char → Option Nat
  | [] => none
  | c :: rest =>
    if c.isDigit then parseDigitsCore rest false (c.toNat - 48) else none

/-- Surrounding-whitespace stripping of Python `int(str)`. -/
def pyStrip (cs : List Char) : List Char :=
  (((cs.dropWhile Char.isWhitespace).reverse).dropWhile Char.isWhitespace).reverse

/-- Model of the builtin `int(s)` on a string: strip surrounding whitespace,
optional sign, then a decimal literal; `none` models a raised `ValueError`. -/
def pyIntParse (s : String) : Option Int :=
  match pyStrip s.data with
  | '+' :: rest => (parseDigits rest).map (fun n => (n : Int))
  | '-' :: rest => (parseDigits rest).map (fun n => -(n : Int))
  | cs => (parseDigits cs).map (fun n => (n : Int))

/-- Outcome of the `__main__` block of `server.py`: the port handed to
`run_server` and whether the invalid-port warning was printed. -/
structure MainResult where
  port : Int
  warned : Bool
  deriving DecidableEq

/-- Model of the `__main__` block: default port 8000; with an argument, try
`int(sys.argv[1])` and on `ValueError` print the warning and keep 8000; then
call `run_server(port)`. -/
def serverMain (arg : Option String) : MainResult :=
  match arg with
  | none => { port := 8000, warned := false }
  | some s =>
    match pyIntParse s with
    | some n => { port := n, warned := false }
    | none => { port := 8000, warned := true }

/-! ## Concrete environments used by witnesses and counterexamples -/

/-- Environment where every font-loading call fails. -/
def trivialFontEnv : FontEnv :=
  { truetype := fun _ _ => none
    loadDefault := none
    textbbox := fun _ _ => { x0 := 0, y0 := 0, x1 := 0, y1 := 0 } }

/-- Environment where truetype loading succeeds and every measured text has
the bounding box `(0, 0, 10, 10)`. -/
def boxFontEnv : FontEnv :=
  { truetype := fun _ _ => some { id := 0 }
    loadDefault := none
    textbbox := fun _ _ => { x0 := 0, y0 := 0, x1 := 10, y1 := 10 } }

/-! ## Helper lemmas -/

/-- Truncation toward zero is monotone. -/
theorem pyInt_mono {p q : ℚ} (h : p ≤ q) : pyInt p ≤ pyInt q := by
  unfold pyInt
  by_cases hp : p < 0
  · by_cases hq : q < 0
    · rw [if_pos hp, if_pos hq]
      exact Int.ceil_mono h
    · rw [if_pos hp, if_neg hq]
      have h1 : ⌈p⌉ ≤ 0 := Int.ceil_le.mpr (by exact_mod_cast hp.le)
      have h2 : (0 : ℤ) ≤ ⌊q⌋ := Int.floor_nonneg.mpr (le_of_not_lt hq)
      omega
  · have hq : ¬ q < 0 := fun hql => hp (lt_of_le_of_lt h hql)
    rw [if_neg hp, if_neg hq]
    exact Int.floor_mono h

/-- The fade factor is antitone in the row index. -/
theorem alphaFade_antitone {size a b : Nat} (hab : a ≤ b) (hs : 0 < size) :
    alphaFade size b ≤ alphaFade size a := by
  unfold alphaFade
  apply pyInt_mono
  have hsq : (0 : ℚ) < (size : ℚ) := by exact_mod_cast hs
  have habq : (a : ℚ) ≤ (b : ℚ) := by exact_mod_cast hab
  have hdiv : (a : ℚ) / (size : ℚ) ≤ (b : ℚ) / (size : ℚ) :=
    div_le_div_of_nonneg_right habq hsq.le
  linarith

/-- The channel shift int(alpha * 0.1) is monotone in the fade factor. -/
theorem channelShift_mono {a b : Int} (h : a ≤ b) :
    pyInt ((a : ℚ) * (1 / 10)) ≤ pyInt ((b : ℚ) * (1 / 10)) := by
  apply pyInt_mono
  have hq : (a : ℚ) ≤ (b : ℚ) := by exact_mod_cast h
  linarith

/-- A path that ends with the service-worker filename does not also end with
the manifest filename: the two filenames end in different characters. -/
theorem sw_not_manifest {path : String} (h : endsWithStr path "sw.js" = true) :
    endsWithStr path "manifest.json" = false := by
  by_contra hman
  rw [Bool.not_eq_false] at hman
  have h1 : "sw.js".data <:+ path.data := List.isSuffixOf_iff_suffix.mp h
  have h2 : "manifest.json".data <:+ path.data := List.isSuffixOf_iff_suffix.mp hman
  obtain ⟨t1, ht1⟩ := h1
  obtain ⟨t2, ht2⟩ := h2
  have e1 : path.data.getLast? = some 's' := by
    rw [← ht1, List.getLast?_append_of_ne_nil t1 (by decide)]
    rfl
  have e2 : path.data.getLast? = some 'n' := by
    rw [← ht2, List.getLast?_append_of_ne_nil t2 (by decide)]
    rfl
  rw [e1] at e2
  exact absurd e2 (by decide)

/-! ## C1 -/

/-- C1: for every size in the fixed list, running the main routine of the
icon generator produces exactly one output file, named
icons/icon-(size)x(size).png, and the raster image written for that size has
width and height both equal to the size. -/
theorem main_one_icon_per_size (env : FontEnv) (s : Nat) (hs : s ∈ sizes) :
    ((mainRun env).filter (fun f => f.name == iconFilename s)) =
      [createIcon env s (iconFilename s)] ∧
    (createIcon env s (iconFilename s)).image.width = s ∧
    (createIcon env s (iconFilename s)).image.height = s := by
  fin_cases hs <;> exact ⟨rfl, rfl, rfl⟩

/-- C1 witness at size 32 under an environment with no fonts. -/
theorem main_one_icon_per_size_witness :
    32 ∈ sizes ∧
    (((mainRun trivialFontEnv).filter (fun f => f.name == iconFilename 32)) =
        [createIcon trivialFontEnv 32 (iconFilename 32)] ∧
      (createIcon trivialFontEnv 32 (iconFilename 32)).image.width = 32 ∧
      (createIcon trivialFontEnv 32 (iconFilename 32)).image.height = 32) :=
  ⟨by decide, main_one_icon_per_size trivialFontEnv 32 (by decide)⟩

/-! ## C2 -/

/-- C2: every response the server sends, whatever the requested path and
whatever the delegate already put in the header buffer (any status, 404
included), carries all six fixed cache and security headers. -/
theorem every_response_has_fixed_headers (path : String)
    (buffered : List (String × String)) :
    ("Cache-Control", "no-cache, no-store, must-revalidate") ∈ endHeaders path buffered ∧
    ("Pragma", "no-cache") ∈ endHeaders path buffered ∧
    ("Expires", "0") ∈ endHeaders path buffered ∧
    ("X-Content-Type-Options", "nosniff") ∈ endHeaders path buffered ∧
    ("X-Frame-Options", "DENY") ∈ endHeaders path buffered ∧
    ("X-XSS-Protection", "1; mode=block") ∈ endHeaders path buffered := by
  refine ⟨?_, ?_, ?_, ?_, ?_, ?_⟩ <;> simp [endHeaders, fixedHeaders]

/-! ## C3 -/

/-- C3: a GET request for the root path produces the same response (status,
headers and body, both produced by the inherited machinery from the final
request path) as a GET request for /index.html. -/
theorem root_request_equals_index_request {α : Type} (base : String → α) :
    doGET base "/" = doGET base "/index.html" := rfl

/-! ## C4 -/

/-- C4: for every request path ending in sw.js the response carries the
Service-Worker-Allowed header, and the effective Content-Type (the last
Content-Type in the header buffer, which overrides the one the delegate
inferred) is application/javascript. -/
theorem sw_js_response_headers (path : String) (buffered : List (String × String))
    (h : endsWithStr path "sw.js" = true) :
    ("Service-Worker-Allowed", "/") ∈ endHeaders path buffered ∧
    effectiveContentType (endHeaders path buffered) = some "application/javascript" := by
  have hman : endsWithStr path "manifest.json" = false := sw_not_manifest h
  have hform : endHeaders path buffered =
      buffered ++ (fixedHeaders ++
        [("Service-Worker-Allowed", "/"),
         ("Content-Type", "application/javascript")]) := by
    simp [endHeaders, h, hman]
  constructor
  · rw [hform]
    simp
  · rw [hform]
    unfold effectiveContentType
    rw [List.filter_append]
    have hconc : (fixedHeaders ++
        [("Service-Worker-Allowed", "/"),
         ("Content-Type", "application/javascript")]).filter
          (fun hd => hd.1 == "Content-Type") =
        [("Content-Type", "application/javascript")] := by decide
    rw [hconc, List.getLast?_concat]
    rfl

/-- C4 witness at the request path /sw.js with an empty prior buffer. -/
theorem sw_js_response_headers_witness :
    endsWithStr "/sw.js" "sw.js" = true ∧
    (("Service-Worker-Allowed", "/") ∈ endHeaders "/sw.js" [] ∧
      effectiveContentType (endHeaders "/sw.js" []) = some "application/javascript") :=
  ⟨rfl, sw_js_response_headers "/sw.js" [] rfl⟩

/-! ## C5 -/

/-- C5 counterexample: with a font available and every text measured with
bounding box (0, 0, 10, 10), the 32 pixel icon draws its main label at
y = 7, while vertical centering per the measured text height would place it
at (32 - 10) // 2 = 11: the code subtracts a further size // 8 = 4. The
horizontal coordinate does match (size - text_width) // 2 = 11. -/
theorem main_text_center_counterexample :
    (createIconImage boxFontEnv 32).texts =
      [{ text := "PWA", x := 11, y := 7, font := { id := 0 } }] ∧
    ((32 : Int) - 10).fdiv 2 = 11 ∧ (7 : Int) ≠ 11 :=
  ⟨by decide, by decide, by decide⟩

/-- C5 (amended): with a font available, the main label is drawn centered
horizontally at (size - text_width) // 2, and vertically at
(size - text_height) // 2 - size // 8, that is size // 8 above the measured
vertical center, with the text measured through its bounding box. -/
theorem main_text_position (env : FontEnv) (size : Nat) (font : Font)
    (hf : loadFont env size = some font) :
    (createIconImage env size).texts.head? = some
      { text := "PWA"
        x := ((size : Int) -
          ((env.textbbox font "PWA").x1 - (env.textbbox font "PWA").x0)).fdiv 2
        y := ((size : Int) -
          ((env.textbbox font "PWA").y1 - (env.textbbox font "PWA").y0)).fdiv 2
          - (size : Int).fdiv 8
        font := font } := by
  simp only [createIconImage, hf]
  split <;> rfl

/-- C5 witness for the amended statement, at size 32 with the concrete
measuring environment. -/
theorem main_text_position_witness :
    loadFont boxFontEnv 32 = some { id := 0 } ∧
    (createIconImage boxFontEnv 32).texts.head? = some
      { text := "PWA", x := 11, y := 7, font := { id := 0 } } :=
  ⟨rfl, by have hm := main_text_position boxFontEnv 32 { id := 0 } rfl; exact hm⟩

/-! ## C6 -/

/-- C6: font loading is never fatal. The scalable font is attempted at point
size max(size // 8, 12); when that attempt and the fixed-size fallback both
fail, the loaded font is None, every text draw is skipped, and create_icon
still writes the PNG under the requested filename with the requested
dimensions. -/
theorem font_failure_never_fatal (env : FontEnv) (size : Nat) (filename : String)
    (h1 : env.truetype "arial.ttf" (max (size / 8) 12) = none)
    (h2 : env.loadDefault = none) :
    loadFont env size = none ∧
    (createIconImage env size).texts = [] ∧
    (createIcon env size filename).name = filename ∧
    (createIcon env size filename).image.width = size ∧
    (createIcon env size filename).image.height = size := by
  have hl : loadFont env size = none := by
    unfold loadFont fontSizeFor
    rw [h1]
    exact h2
  refine ⟨hl, ?_, rfl, rfl, rfl⟩
  simp only [createIconImage, hl]

/-- C6 witness: the environment with no fonts at all, size 32. -/
theorem font_failure_never_fatal_witness :
    trivialFontEnv.truetype "arial.ttf" (max (32 / 8) 12) = none ∧
    trivialFontEnv.loadDefault = none ∧
    (loadFont trivialFontEnv 32 = none ∧
      (createIconImage trivialFontEnv 32).texts = [] ∧
      (createIcon trivialFontEnv 32 "icons/icon-32x32.png").name = "icons/icon-32x32.png" ∧
      (createIcon trivialFontEnv 32 "icons/icon-32x32.png").image.width = 32 ∧
      (createIcon trivialFontEnv 32 "icons/icon-32x32.png").image.height = 32) :=
  ⟨rfl, rfl, font_failure_never_fatal trivialFontEnv 32 "icons/icon-32x32.png" rfl rfl⟩

/-! ## C7 -/

/-- C7 counterexample: the brightness reduction at the last row is not 30
percent. At size 32 the last-row fade factor is
int(255 * (1 - 31/32 * 0.3)) = 180, whereas a 30 percent reduction of 255
is the ratio 7/10, and 180 / 255 differs from it. -/
theorem gradient_last_row_not_thirty_percent :
    alphaFade 32 31 = 180 ∧ ((180 : ℚ) / 255) ≠ 1 - 3 / 10 := by
  constructor
  · have hval : (255 : ℚ) * (1 - ((31 : Nat) : ℚ) / ((32 : Nat) : ℚ) * (3 / 10)) =
        11577 / 64 := by
      push_cast
      norm_num
    unfold alphaFade pyInt
    rw [hval, if_neg (by norm_num), Int.floor_eq_iff]
    norm_num
  · norm_num

/-- C7 (amended): for rows of an icon of positive size, the fade factor
int(255 * (1 - y/size * 0.3)) is monotonically non-increasing in y, every
channel of the per-row fill color is monotonically non-increasing in y, and
the fade factor attains its minimum at the last row; the brightness
reduction there approximates 30 percent without in general reaching it
exactly. -/
theorem gradient_darkens_toward_bottom (size y1 y2 : Nat)
    (h12 : y1 ≤ y2) (h2 : y2 < size) :
    alphaFade size y2 ≤ alphaFade size y1 ∧
    channelR size y2 ≤ channelR size y1 ∧
    channelG size y2 ≤ channelG size y1 ∧
    channelB size y2 ≤ channelB size y1 ∧
    alphaFade size (size - 1) ≤ alphaFade size y1 := by
  have hs : 0 < size := lt_of_le_of_lt (Nat.zero_le _) h2
  have ha : alphaFade size y2 ≤ alphaFade size y1 := alphaFade_antitone h12 hs
  have halast : alphaFade size (size - 1) ≤ alphaFade size y1 :=
    alphaFade_antitone (by omega) hs
  have hshift := channelShift_mono ha
  refine ⟨ha, ?_, ?_, ?_, halast⟩
  · unfold channelR
    omega
  · unfold channelG
    omega
  · unfold channelB
    exact le_refl _

/-- C7 witness for the amended statement: rows 0 and 31 of the 32 pixel
icon. -/
theorem gradient_darkens_toward_bottom_witness :
    0 ≤ 31 ∧ 31 < 32 ∧
    (alphaFade 32 31 ≤ alphaFade 32 0 ∧
      channelR 32 31 ≤ channelR 32 0 ∧
      channelG 32 31 ≤ channelG 32 0 ∧
      channelB 32 31 ≤ channelB 32 0 ∧
      alphaFade 32 (32 - 1) ≤ alphaFade 32 0) :=
  ⟨by norm_num, by norm_num, gradient_darkens_toward_bottom 32 0 31 (by norm_num) (by norm_num)⟩

/-! ## C8 -/

/-- C8: when the single positional argument does not parse as an integer,
the entry point of server.py prints the warning, does not raise, and starts
the server on the default port 8000. -/
theorem invalid_port_falls_back_to_8000 (s : String) (h : pyIntParse s = none) :
    serverMain (some s) = { port := 8000, warned := true } := by
  show (match pyIntParse s with
    | some n => ({ port := n, warned := false } : MainResult)
    | none => { port := 8000, warned := true }) = { port := 8000, warned := true }
  rw [h]

/-- C8 witness at the non-numeric argument abc. -/
theorem invalid_port_falls_back_to_8000_witness :
    pyIntParse "abc" = none ∧
    serverMain (some "abc") = { port := 8000, warned := true } :=
  ⟨rfl, invalid_port_falls_back_to_8000 "abc" rfl⟩

/-! ## C9 -/

/-- C9 counterexample: the claim quantifies over every file whose name ends
in .json, but a file named exactly .json (a dotfile) has no extension under
posixpath.splitext, so the delegate infers application/octet-stream for it,
not application/manifest+json, even though its name ends in .json. -/
theorem json_dotfile_counterexample :
    endsWithStr "/.json" ".json" = true ∧
    guessTypeHandler runServerTypesMap "/.json" = "application/octet-stream" ∧
    "application/octet-stream" ≠ "application/manifest+json" :=
  ⟨by decide, by decide, by decide⟩

/-- C9 (amended): because run_server registers the MIME override
application/manifest+json for the whole .json extension, every path whose
splitext extension is .json (every name ending in .json whose basename has a
non-dot character before the suffix) is served by the delegate with inferred
Content-Type application/manifest+json, not only manifest.json. -/
theorem json_extension_served_as_manifest (path : String)
    (h : extOf path = ".json") :
    guessTypeHandler runServerTypesMap path = "application/manifest+json" := by
  have hdat : splitextExt path.data = ".json".data := congrArg String.data h
  have hlow : lowerExt path = ".json" := by
    unfold lowerExt
    rw [hdat]
    decide
  unfold guessTypeHandler
  rw [h, hlow]
  decide

/-- C9 witness for the amended statement, at the non-manifest path
/data.json. -/
theorem json_extension_served_as_manifest_witness :
    extOf "/data.json" = ".json" ∧
    guessTypeHandler runServerTypesMap "/data.json" = "application/manifest+json" :=
  ⟨by decide, json_extension_served_as_manifest "/data.json" (by decide)⟩

/-! ## C10 -/

/-- C10: the root rewrite applies only to GET. For every other method that
the inherited handler serves, the request keeps its literal path: whenever
the dispatch hands a path to the inherited machinery for a non-GET method,
that path is the request path unchanged. -/
theorem non_get_root_not_rewritten (method path q : String)
    (hm : method ≠ "GET") (hq : effectivePath method path = some q) :
    q = path := by
  unfold effectivePath at hq
  rw [if_neg hm] at hq
  split at hq
  · exact (Option.some.inj hq).symm
  · exact Option.noConfusion hq

/-- C10 witness: a HEAD request for the root path keeps the literal path. -/
theorem non_get_root_not_rewritten_witness :
    "HEAD" ≠ "GET" ∧ effectivePath "HEAD" "/" = some "/" ∧ ("/" : String) = "/" :=
  ⟨by decide, rfl, non_get_root_not_rewritten "HEAD" "/" "/" (by decide) rfl⟩

end PWA
